import Mathlib

/-
Verification of the AgenticUnderwriting workflow core.

This file gives a shallow embedding, in Lean 4, of the underwriting
workflow implemented in `src/workflows/nodes.py`, `src/workflows/graph.py`,
`src/workflows/agentic_graph.py`, `src/tools/rating_tool.py`,
`src/tools/hazard_tool.py` and the data model of `src/models/schemas.py`.

Modelling conventions:
- Python floats are modelled as exact rationals (ℚ); `round(x, 2)` is
  modelled as decimal rounding half-to-even (the convention of Python's
  `round`) on the scaled value.
- Python string truthiness (`if s:`) is `s ≠ ""` after the relevant
  operation, and `if optional_int:` is true exactly when the value is
  present and nonzero.
- `ToolCall` keeps only `tool_name`; the input/output snapshots and the
  timestamp are audit payloads no workflow branch ever reads.
- The address-normalization, hazard-scoring and retrieval collaborators
  are passed in as functions (spec §6 lists them as external
  collaborators).  The hazard tool's own computation, whose random
  per-call jitter matters for determinism claims, is embedded separately
  with the four `random.uniform(-0.1, 0.1)` draws as explicit inputs.
- Exceptions (`AttributeError` on a `None` attribute access,
  `ValidationError` on constructing `HazardScores` from `{}`) are
  modelled by `Option`/a `crash` outcome.
- The LangGraph engine runs one node at a time here (the graph is a
  chain with conditional edges); it is modelled as a fuelled small-step
  interpreter over a node enum, `fuelOut` standing for a run that is
  still going when the fuel (LangGraph's recursion limit) is exhausted.
-/

namespace AUW

/-- Decision enum from `models/schemas.py`. -/
inductive DecisionType where
  | ACCEPT
  | REFER
  | DECLINE
deriving DecidableEq, Repr

/-- `QuoteSubmission` from `models/schemas.py`. -/
structure QuoteSubmission where
  applicant_name : String
  address : String
  property_type : String
  coverage_amount : ℚ
  construction_year : Option ℤ
  square_footage : Option ℚ
  roof_type : Option String
  foundation_type : Option String
  additional_info : Option String
deriving DecidableEq, Repr

/-- `NormalizedAddress` from `models/schemas.py`. -/
structure NormalizedAddress where
  street_address : String
  city : String
  state : String
  zip_code : String
  latitude : Option ℚ
  longitude : Option ℚ
  county : Option String
deriving DecidableEq, Repr

/-- `HazardScores` from `models/schemas.py`. -/
structure HazardScores where
  wildfire_risk : ℚ
  flood_risk : ℚ
  wind_risk : ℚ
  earthquake_risk : ℚ
deriving DecidableEq, Repr

/-- `PremiumBreakdown` from `models/schemas.py`; `rating_factors` is an
association list in insertion order. -/
structure PremiumBreakdown where
  base_premium : ℚ
  hazard_surcharge : ℚ
  total_premium : ℚ
  rating_factors : List (String × ℚ)
deriving DecidableEq, Repr

/-- The `property_details` dict assembled by `enrich_data`. -/
structure PropertyDetails where
  property_type : String
  construction_year : Option ℤ
  square_footage : Option ℚ
  roof_type : Option String
  foundation_type : Option String
deriving DecidableEq, Repr

/-- `EnrichmentResult` from `models/schemas.py`. -/
structure EnrichmentResult where
  normalized_address : NormalizedAddress
  hazard_scores : HazardScores
  property_details : PropertyDetails
deriving DecidableEq, Repr

/-- `RetrievalChunk` from `models/schemas.py` (the free-form metadata and
relevance score are never read by the workflow nodes); `section` is a
Lean keyword, so that field is `sectionId` here. -/
structure RetrievalChunk where
  doc_id : String
  doc_version : String
  sectionId : String
  chunk_id : String
  text : String
deriving DecidableEq, Repr

/-- `UWTrigger` from `models/schemas.py`. -/
structure UWTrigger where
  trigger_type : String
  description : String
  severity : String
  requires_action : Bool
deriving DecidableEq, Repr

/-- `UWQuestion` from `models/schemas.py`. -/
structure UWQuestion where
  question_id : String
  question_text : String
  question_type : String
  required : Bool
  options : Option (List String)
deriving DecidableEq, Repr

/-- `UWAssessment` from `models/schemas.py`. -/
structure UWAssessment where
  eligibility_score : ℚ
  triggers : List UWTrigger
  required_questions : List UWQuestion
  reasoning : String
  citations : List String
  confidence : ℚ
deriving DecidableEq, Repr

/-- `Decision` from `models/schemas.py`. -/
structure Decision where
  decision : DecisionType
  rationale : String
  citations : List String
  premium : Option PremiumBreakdown
  required_questions : List UWQuestion
  next_steps : List String
deriving DecidableEq, Repr

/-- `ToolCall`, reduced to the field the workflow logic can observe. -/
structure ToolCall where
  tool_name : String
deriving DecidableEq, Repr

/-- A value supplied in the `additional_answers` dict.  Only well-typed
values are modelled; the claims under study never supply a value of the
wrong type for a field. -/
inductive AnsVal where
  | vStr (s : String)
  | vInt (n : ℤ)
  | vRat (q : ℚ)
deriving DecidableEq, Repr

/-- `WorkflowState` from `models/schemas.py`; `additional_answers` is the
answers dict as an association list in iteration order. -/
@[ext] structure WorkflowState where
  quote_submission : QuoteSubmission
  enrichment_result : Option EnrichmentResult
  retrieved_guidelines : List RetrievalChunk
  uw_assessment : Option UWAssessment
  decision : Option Decision
  premium_breakdown : Option PremiumBreakdown
  tool_calls : List ToolCall
  current_node : Option String
  missing_info : List String
  additional_answers : List (String × AnsVal)
  citation_guardrail_triggered : Bool
deriving DecidableEq, Repr

/-! ## Numeric helpers -/

/-- Python's `round` to the nearest integer: half-way cases go to the
even neighbour. -/
def bankersRound (x : ℚ) : ℤ :=
  if x - ⌊x⌋ = 1 / 2 then (if Even ⌊x⌋ then ⌊x⌋ else ⌊x⌋ + 1) else round x

/-- Python's `round(x, 2)`. -/
def round2 (x : ℚ) : ℚ := (bankersRound (100 * x) : ℚ) / 100

/-- Clamping used by the assessment node: `max(0, min(1, x))`. -/
def clamp01 (x : ℚ) : ℚ := max 0 (min 1 x)

/-- Decimal rendering of a nonnegative number of cents, as `d.cc`. -/
def centsRender (c : ℤ) : String :=
  toString (c / 100) ++ "." ++ (if c % 100 < 10 then "0" else "") ++ toString (c % 100)

/-- Python's `f"{x:.2f}"` for the nonnegative scores this code formats. -/
def fmt2 (x : ℚ) : String := centsRender (bankersRound (100 * x))

/-- Python's `if optional_int:` truthiness. -/
def intTruthy : Option ℤ → Bool
  | none => false
  | some n => n != 0

/-! ## String helpers

The guideline texts, field names and rationales this code handles are
ASCII, so Python's `str.strip`, `str.lower` and `str.replace` are
modelled on the character list directly. -/

/-- Python's `str.strip()`. -/
def pyStrip (s : String) : String :=
  ⟨((s.data.dropWhile Char.isWhitespace).reverse.dropWhile Char.isWhitespace).reverse⟩

/-- ASCII lower-casing of one character. -/
def charLower (c : Char) : Char :=
  match c with
  | 'A' => 'a' | 'B' => 'b' | 'C' => 'c' | 'D' => 'd' | 'E' => 'e' | 'F' => 'f'
  | 'G' => 'g' | 'H' => 'h' | 'I' => 'i' | 'J' => 'j' | 'K' => 'k' | 'L' => 'l'
  | 'M' => 'm' | 'N' => 'n' | 'O' => 'o' | 'P' => 'p' | 'Q' => 'q' | 'R' => 'r'
  | 'S' => 's' | 'T' => 't' | 'U' => 'u' | 'V' => 'v' | 'W' => 'w' | 'X' => 'x'
  | 'Y' => 'y' | 'Z' => 'z'
  | other => other

/-- Python's `str.lower()` on ASCII text. -/
def strLower (s : String) : String := ⟨s.data.map charLower⟩

/-- Python's `str.replace("_", " ")`. -/
def replaceUnderscores (s : String) : String :=
  ⟨s.data.map (fun c => if c = '_' then ' ' else c)⟩

/-! ## Rating tool (`src/tools/rating_tool.py`) -/

/-- Base rate per $1000 of coverage. -/
def base_rate_per_1000 : ℚ := 5 / 2

/-- `self.property_multipliers.get(property_type, 1.0)`. -/
def property_multiplier (property_type : String) : ℚ :=
  if property_type = "single_family" then 1
  else if property_type = "condo" then 4 / 5
  else if property_type = "townhouse" then 9 / 10
  else if property_type = "commercial" then 3 / 2
  else 1

/-- The base premium before rounding: coverage scaled by the base rate,
the property-type multiplier and the construction-age factor. -/
def basePremiumRaw (coverage_amount : ℚ) (property_type : String)
    (construction_year : Option ℤ) : ℚ :=
  let bp := coverage_amount / 1000 * base_rate_per_1000
  let bp := bp * property_multiplier property_type
  if intTruthy construction_year then
    let age := 2024 - construction_year.getD 0
    if age < 10 then bp * (9 / 10)
    else if age > 50 then bp * (6 / 5)
    else bp
  else bp

/-- The hazard surcharge before rounding: Σ risk × base × weight. -/
def hazardSurchargeRaw (bp : ℚ) (h : HazardScores) : ℚ :=
  h.wildfire_risk * bp * (3 / 10) + h.flood_risk * bp * (4 / 10) +
    h.wind_risk * bp * (2 / 10) + h.earthquake_risk * bp * (5 / 10)

/-- The `rating_factors` map built by `calculate_premium`. -/
def ratingFactors (bp hs : ℚ) (property_type : String)
    (construction_year : Option ℤ) : List (String × ℚ) :=
  let factors := [("base_rate", base_rate_per_1000),
    ("property_multiplier", property_multiplier property_type),
    ("hazard_load", if bp > 0 then hs / bp else 0)]
  if intTruthy construction_year then
    let age := 2024 - construction_year.getD 0
    if age < 10 then factors ++ [("construction_discount", 9 / 10)]
    else if age > 50 then factors ++ [("construction_surcharge", 6 / 5)]
    else factors
  else factors

/-- `RatingTool.calculate_premium`. -/
def calculate_premium (coverage_amount : ℚ) (property_type : String)
    (hazard_scores : HazardScores) (construction_year : Option ℤ) :
    PremiumBreakdown :=
  let bp := basePremiumRaw coverage_amount property_type construction_year
  let hs := hazardSurchargeRaw bp hazard_scores
  { base_premium := round2 bp
    hazard_surcharge := round2 hs
    total_premium := round2 (bp + hs)
    rating_factors := ratingFactors bp hs property_type construction_year }

/-! ## Hazard tool (`src/tools/hazard_tool.py`) -/

/-- The four `random.uniform(-0.1, 0.1)` draws one call to
`calculate_hazard_scores` makes, one per hazard dimension. -/
structure HazardNoise where
  w : ℚ
  f : ℚ
  wi : ℚ
  e : ℚ
deriving DecidableEq, Repr

/-- The draws of one call really lie in `[-0.1, 0.1]`. -/
def validNoise (n : HazardNoise) : Prop :=
  |n.w| ≤ 1 / 10 ∧ |n.f| ≤ 1 / 10 ∧ |n.wi| ≤ 1 / 10 ∧ |n.e| ≤ 1 / 10

/-- `self.county_hazard_data.get(county, defaults)`. -/
def county_hazard_data (county : Option String) : HazardScores :=
  match county with
  | some "Los Angeles County" => ⟨7 / 10, 3 / 10, 2 / 10, 8 / 10⟩
  | some "San Francisco County" => ⟨1 / 10, 4 / 10, 3 / 10, 9 / 10⟩
  | some "San Diego County" => ⟨8 / 10, 2 / 10, 4 / 10, 6 / 10⟩
  | some "Sacramento County" => ⟨4 / 10, 5 / 10, 2 / 10, 5 / 10⟩
  | some "Fresno County" => ⟨6 / 10, 3 / 10, 3 / 10, 4 / 10⟩
  | _ => ⟨3 / 10, 3 / 10, 3 / 10, 3 / 10⟩

/-- `HazardScoreTool.calculate_hazard_scores`, with the call's four
random draws made explicit. -/
def calculate_hazard_scores (address : NormalizedAddress)
    (noise : HazardNoise) : HazardScores :=
  let base := county_hazard_data address.county
  { wildfire_risk := clamp01 (base.wildfire_risk + noise.w)
    flood_risk := clamp01 (base.flood_risk + noise.f)
    wind_risk := clamp01 (base.wind_risk + noise.wi)
    earthquake_risk := clamp01 (base.earthquake_risk + noise.e) }

/-! ## Collaborator interfaces (spec §6)

The workflow engine consumes the address normalizer, the hazard scorer
and the retrieval store through their call interfaces.  A `Collaborators`
value fixes the outputs these calls produce during one run. -/

structure Collaborators where
  normalize : QuoteSubmission → NormalizedAddress
  hazard : NormalizedAddress → HazardScores
  retrieve : String → List RetrievalChunk

/-! ## Workflow nodes (`src/workflows/nodes.py`) -/

/-- The missing/invalid list `validate_submission` accumulates: the
sequence of checks of the source, each appending to `missing_info`. -/
def validate_missing (submission : QuoteSubmission) : List String :=
  let missing_info : List String := []
  let missing_info :=
    if pyStrip submission.applicant_name = "" then missing_info ++ ["applicant_name"]
    else missing_info
  let missing_info :=
    if pyStrip submission.address = "" then missing_info ++ ["address"] else missing_info
  let missing_info :=
    if pyStrip submission.property_type = "" then missing_info ++ ["property_type"]
    else missing_info
  let missing_info :=
    if submission.coverage_amount ≤ 0 then missing_info ++ ["valid coverage_amount"]
    else missing_info
  let missing_info :=
    if submission.coverage_amount > 10000000 then
      missing_info ++ ["coverage_amount exceeds maximum limit"]
    else missing_info
  let missing_info :=
    if intTruthy submission.construction_year ∧ submission.construction_year.getD 0 > 2024 then
      missing_info ++ ["construction_year cannot be in the future"]
    else missing_info
  let missing_info :=
    if intTruthy submission.construction_year ∧ submission.construction_year.getD 0 < 1800 then
      missing_info ++ ["construction_year seems too old"]
    else missing_info
  missing_info

/-- `UnderwritingNodes.validate_submission`. -/
def validate_submission (state : WorkflowState) : WorkflowState :=
  { state with
      missing_info := validate_missing state.quote_submission
      current_node := some "validate"
      tool_calls := state.tool_calls ++ [⟨"validate_submission"⟩] }

/-- The `EnrichmentResult` `enrich_data` assembles from the two
collaborator calls. -/
def enrichment_of (C : Collaborators) (submission : QuoteSubmission) : EnrichmentResult :=
  { normalized_address := C.normalize submission
    hazard_scores := C.hazard (C.normalize submission)
    property_details :=
      { property_type := submission.property_type
        construction_year := submission.construction_year
        square_footage := submission.square_footage
        roof_type := submission.roof_type
        foundation_type := submission.foundation_type } }

/-- `UnderwritingNodes.enrich_data`. -/
def enrich_data (C : Collaborators) (state : WorkflowState) : WorkflowState :=
  { state with
      enrichment_result := some (enrichment_of C state.quote_submission)
      current_node := some "enrich"
      tool_calls := state.tool_calls ++ [⟨"address_normalize"⟩, ⟨"hazard_score"⟩] }

/-- The query string `retrieve_guidelines` assembles from the submission
and the enrichment result. -/
def build_query (submission : QuoteSubmission)
    (enrichment : Option EnrichmentResult) : String :=
  let parts := ["property type " ++ submission.property_type]
  let parts :=
    match enrichment with
    | some e =>
      let parts :=
        if e.hazard_scores.wildfire_risk > 1 / 2 then parts ++ ["wildfire risk assessment"]
        else parts
      let parts :=
        if e.hazard_scores.flood_risk > 1 / 2 then parts ++ ["flood risk evaluation"]
        else parts
      let parts :=
        if e.hazard_scores.wind_risk > 1 / 2 then parts ++ ["wind damage risk"] else parts
      if e.hazard_scores.earthquake_risk > 1 / 2 then parts ++ ["earthquake hazard"]
      else parts
    | none => parts
  let parts :=
    if intTruthy submission.construction_year then
      if submission.construction_year.getD 0 < 1940 then
        parts ++ ["old construction requirements"]
      else if submission.construction_year.getD 0 < 1970 then
        parts ++ ["older building standards"]
      else parts
    else parts
  let parts :=
    match submission.roof_type with
    | some r => if r ≠ "" then parts ++ ["roof " ++ r] else parts
    | none => parts
  let parts :=
    match submission.foundation_type with
    | some f => if f ≠ "" then parts ++ ["foundation " ++ f] else parts
    | none => parts
  String.intercalate " " parts

/-- `UnderwritingNodes.retrieve_guidelines`. -/
def retrieve_guidelines (C : Collaborators) (state : WorkflowState) : WorkflowState :=
  let query := build_query state.quote_submission state.enrichment_result
  { state with
      retrieved_guidelines := C.retrieve query
      current_node := some "retrieve_guidelines"
      tool_calls := state.tool_calls ++ [⟨"rag_retrieval"⟩] }

/-- Does `pat` occur as a contiguous substring (Python's `in`)? -/
def occursIn (pat : List Char) : List Char → Bool
  | [] => pat.isEmpty
  | c :: t => pat.isPrefixOf (c :: t) || occursIn pat t

/-- The keyword test of the citation loop in `assess_underwriting`:
`any(keyword in chunk.text.lower() for keyword in [...])`. -/
def chunkHasKeyword (chunk : RetrievalChunk) : Bool :=
  ["risk", "requirement", "eligible", "standard"].any
    (fun kw => occursIn kw.toList (strLower chunk.text).toList)

/-- The citation key a chunk contributes: `f"{chunk.doc_id}:{chunk.section}"`. -/
def citationKey (chunk : RetrievalChunk) : String :=
  chunk.doc_id ++ ":" ++ chunk.sectionId

/-- The citation loop of `assess_underwriting`, appending in chunk order. -/
def citationsOf (guidelines : List RetrievalChunk) : List String :=
  guidelines.foldl
    (fun acc chunk => if chunkHasKeyword chunk then acc ++ [citationKey chunk] else acc) []

/-- The follow-up question added for pre-1940 construction. -/
def construction_updates_question : UWQuestion :=
  { question_id := "construction_updates"
    question_text := "What updates have been made to electrical, plumbing, and roofing systems?"
    question_type := "text"
    required := true
    options := none }

/-- The follow-up question added for high wildfire risk. -/
def wildfire_mitigation_question : UWQuestion :=
  { question_id := "wildfire_mitigation"
    question_text := "What wildfire mitigation measures are in place?"
    question_type := "text"
    required := true
    options := none }

/-- The follow-up question added for high flood risk. -/
def elevation_certificate_question : UWQuestion :=
  { question_id := "elevation_certificate"
    question_text := "Is an elevation certificate available?"
    question_type := "choice"
    required := true
    options := some ["Yes", "No", "Unknown"] }

/-- The pure aggregation inside `UnderwritingNodes.assess_underwriting`.
Each source `if` that adjusts several accumulators is rendered as one
`if` per accumulator with the identical condition. -/
def assess_core (submission : QuoteSubmission)
    (enrichment : Option EnrichmentResult)
    (guidelines : List RetrievalChunk) : UWAssessment :=
  let ptBad := submission.property_type ∉ ["single_family", "condo", "townhouse"]
  let cyOld := intTruthy submission.construction_year ∧
    submission.construction_year.getD 0 < 1940
  let triggers : List UWTrigger :=
    (if ptBad then
      [{ trigger_type := "property_type"
         description := "Property type " ++ submission.property_type ++ " may not be eligible"
         severity := "high"
         requires_action := true }]
    else []) ++
    (if cyOld then
      [{ trigger_type := "construction_age"
         description := "Property constructed before 1940 requires additional review"
         severity := "medium"
         requires_action := true }]
    else [])
  let required_questions : List UWQuestion :=
    if cyOld then [construction_updates_question] else []
  let eligibility_score : ℚ :=
    8 / 10 - (if ptBad then 3 / 10 else 0) - (if cyOld then 2 / 10 else 0)
  let hazardPart : List UWTrigger × List UWQuestion × ℚ :=
    match enrichment with
    | none => ([], [], 0)
    | some e =>
      let wfHigh := e.hazard_scores.wildfire_risk > 7 / 10
      let wfMed := ¬ wfHigh ∧ e.hazard_scores.wildfire_risk > 1 / 2
      let flHigh := e.hazard_scores.flood_risk > 7 / 10
      let hazTriggers : List UWTrigger :=
        (if wfHigh then
          [{ trigger_type := "wildfire_risk", description := "High wildfire risk detected"
             severity := "high", requires_action := true }]
        else []) ++
        (if wfMed then
          [{ trigger_type := "wildfire_risk", description := "Moderate wildfire risk detected"
             severity := "medium", requires_action := false }]
        else []) ++
        (if flHigh then
          [{ trigger_type := "flood_risk", description := "High flood risk detected"
             severity := "high", requires_action := true }]
        else [])
      let hazQuestions : List UWQuestion :=
        (if wfHigh then [wildfire_mitigation_question] else []) ++
          (if flHigh then [elevation_certificate_question] else [])
      let hazDeduction : ℚ :=
        (if wfHigh then 3 / 10 else 0) + (if wfMed then 1 / 10 else 0) +
          (if flHigh then 3 / 10 else 0)
      (hazTriggers, hazQuestions, hazDeduction)
  let triggers := triggers ++ hazardPart.1
  let required_questions := required_questions ++ hazardPart.2.1
  let eligibility_score := eligibility_score - hazardPart.2.2
  let citations := citationsOf guidelines
  let eligibility_score := clamp01 eligibility_score
  let reasoning_parts :=
    if triggers ≠ [] then
      ["Identified " ++ toString triggers.length ++ " risk factors:"] ++
        triggers.map (fun t => "- " ++ t.description)
    else ["No significant risk factors identified"]
  let reasoning_parts := reasoning_parts ++ ["Eligibility score: " ++ fmt2 eligibility_score]
  { eligibility_score := eligibility_score
    triggers := triggers
    required_questions := required_questions
    reasoning := String.intercalate "; " reasoning_parts
    citations := citations
    confidence := if citations.length > 0 then 17 / 20 else 3 / 5 }

/-- `UnderwritingNodes.assess_underwriting` as a state transformer. -/
def assess_underwriting (state : WorkflowState) : WorkflowState :=
  { state with
      uw_assessment :=
        some (assess_core state.quote_submission state.enrichment_result
          state.retrieved_guidelines)
      current_node := some "uw_assess"
      tool_calls := state.tool_calls ++ [⟨"underwriting_assessment"⟩] }

/-- The REFER decision the citation guardrail forces. -/
def guardrail_decision : Decision :=
  { decision := .REFER
    rationale := "Insufficient evidence: Underwriting assessment lacks proper citations from guidelines"
    citations := []
    premium := none
    required_questions := []
    next_steps := ["Manual underwriter review required", "Guideline citations needed for decision"] }

/-- `UnderwritingNodes.apply_citation_guardrail`. -/
def apply_citation_guardrail (state : WorkflowState) : WorkflowState :=
  let fire :=
    match state.uw_assessment with
    | none => true
    | some a => a.citations.isEmpty
  if fire then
    { state with
        decision := some guardrail_decision
        citation_guardrail_triggered := true
        tool_calls := state.tool_calls ++ [⟨"citation_guardrail"⟩]
        current_node := some "citation_guardrail" }
  else
    { state with
        citation_guardrail_triggered := false
        current_node := some "citation_guardrail" }

/-- `UnderwritingNodes.rate_policy`.  When no enrichment result is
present the source builds `HazardScores(**{})`, which raises, hence
`none` here; in both graphs rating only runs after enrichment. -/
def rate_policy (state : WorkflowState) : Option WorkflowState :=
  match state.enrichment_result with
  | none => none
  | some e =>
    let submission := state.quote_submission
    let premium := calculate_premium submission.coverage_amount submission.property_type
      e.hazard_scores submission.construction_year
    some { state with
      premium_breakdown := some premium
      current_node := some "rate"
      tool_calls := state.tool_calls ++ [⟨"rating_calculation"⟩] }

/-- Non-field attribute names of the submission object: pydantic-v2
`BaseModel` methods and class attributes.  `hasattr(submission, k)` is
true for these, yet `setattr` then raises `ValueError` because they are
not fields.  This list models the model's non-field attribute namespace
(the pydantic v1/v2 public API names). -/
def base_model_attrs : List String :=
  ["model_dump", "model_dump_json", "model_copy", "model_validate", "model_validate_json",
   "model_construct", "model_json_schema", "model_fields_set", "model_extra",
   "model_config", "model_post_init", "dict", "json", "copy", "parse_obj", "parse_raw",
   "parse_file", "from_orm", "schema", "schema_json", "construct",
   "update_forward_refs"]

/-- One `setattr(submission, field, value)` guarded by
`hasattr(submission, field)`.  A key naming one of the nine schema
fields updates that field; a key naming a non-field attribute passes
the `hasattr` guard but the `setattr` raises `ValueError` (`none`
here); any other key fails `hasattr` and is skipped. -/
def setField (sub : QuoteSubmission) (key : String) (v : AnsVal) :
    Option QuoteSubmission :=
  if key = "applicant_name" then
    match v with
    | .vStr t => some { sub with applicant_name := t }
    | _ => some sub
  else if key = "address" then
    match v with
    | .vStr t => some { sub with address := t }
    | _ => some sub
  else if key = "property_type" then
    match v with
    | .vStr t => some { sub with property_type := t }
    | _ => some sub
  else if key = "coverage_amount" then
    match v with
    | .vRat q => some { sub with coverage_amount := q }
    | .vInt n => some { sub with coverage_amount := (n : ℚ) }
    | _ => some sub
  else if key = "construction_year" then
    match v with
    | .vInt n => some { sub with construction_year := some n }
    | _ => some sub
  else if key = "square_footage" then
    match v with
    | .vRat q => some { sub with square_footage := some q }
    | .vInt n => some { sub with square_footage := some (n : ℚ) }
    | _ => some sub
  else if key = "roof_type" then
    match v with
    | .vStr t => some { sub with roof_type := some t }
    | _ => some sub
  else if key = "foundation_type" then
    match v with
    | .vStr t => some { sub with foundation_type := some t }
    | _ => some sub
  else if key = "additional_info" then
    match v with
    | .vStr t => some { sub with additional_info := some t }
    | _ => some sub
  else if key ∈ base_model_attrs then none
  else some sub

/-- The answer-application loop of `handle_missing_info`: the first key
whose `setattr` raises aborts the loop (and the node) with that error. -/
def applyAnswers (sub : QuoteSubmission) :
    List (String × AnsVal) → Option QuoteSubmission
  | [] => some sub
  | kv :: rest =>
    match setField sub kv.1 kv.2 with
    | none => none
    | some sub₂ => applyAnswers sub₂ rest

/-- The question synthesized for one missing field. -/
def missing_question (field : String) : UWQuestion :=
  { question_id := "missing_" ++ field
    question_text := "Please provide " ++ replaceUnderscores field
    question_type := "text"
    required := true
    options := none }

/-- `UnderwritingNodes.handle_missing_info`; `none` models the
`ValueError` escaping when an answer key names a non-field attribute. -/
def handle_missing_info (state : WorkflowState) : Option WorkflowState :=
  if state.additional_answers ≠ [] then
    match applyAnswers state.quote_submission state.additional_answers with
    | none => none
    | some sub₂ =>
      some { state with
        quote_submission := sub₂
        missing_info := []
        tool_calls := state.tool_calls ++ [⟨"process_additional_answers"⟩]
        current_node := some "handle_missing_info" }
  else
    let missing_questions := state.missing_info.map missing_question
    some { state with
        decision := some
          { decision := .REFER
            rationale := "Additional information required: " ++
              String.intercalate ", " state.missing_info
            citations := []
            premium := none
            required_questions := missing_questions
            next_steps := ["Provide missing information and resubmit"] }
        tool_calls := state.tool_calls ++ [⟨"generate_missing_info_questions"⟩]
        current_node := some "handle_missing_info" }

/-- The decision value `make_decision` computes from the assessment, the
missing-info list and the stored premium breakdown. -/
def decision_for (assessment : UWAssessment) (missing_info : List String)
    (premium : Option PremiumBreakdown) : Decision :=
  let hasHigh := assessment.triggers.any (fun t => t.severity == "high")
  if missing_info ≠ [] then
    { decision := .REFER
      rationale := "Missing required information: " ++ String.intercalate ", " missing_info
      citations := []
      premium := none
      required_questions := missing_info.map missing_question
      next_steps := ["Provide missing information and resubmit"] }
  else if assessment.eligibility_score ≥ 7 / 10 ∧ ¬ hasHigh then
    { decision := .ACCEPT
      rationale := "Property meets eligibility criteria. Score: " ++
        fmt2 assessment.eligibility_score
      citations := assessment.citations
      premium := premium
      required_questions := []
      next_steps := ["Policy issuance", "Payment collection", "Policy document delivery"] }
  else if assessment.eligibility_score < 1 / 2 ∨ hasHigh then
    { decision := .DECLINE
      rationale := "Property does not meet eligibility requirements. Score: " ++
        fmt2 assessment.eligibility_score
      citations := assessment.citations
      premium := none
      required_questions := []
      next_steps := ["Notify applicant of decline", "Provide specific reasons",
        "Suggest improvements for future consideration"] }
  else
    { decision := .REFER
      rationale := "Property requires manual review. Score: " ++
        fmt2 assessment.eligibility_score
      citations := assessment.citations
      premium := none
      required_questions := assessment.required_questions
      next_steps := ["Underwriter manual review", "Additional documentation may be required"] }

/-- `UnderwritingNodes.make_decision`.  The node's ToolCall logging reads
`assessment.eligibility_score` unconditionally, so the whole node raises
`AttributeError` whenever `uw_assessment` is `None` — including on the
missing-info branch, whose decision is built before the log line runs. -/
def make_decision (state : WorkflowState) : Option WorkflowState :=
  match state.uw_assessment with
  | none => none
  | some assessment =>
    some { state with
      decision := some (decision_for assessment state.missing_info state.premium_breakdown)
      current_node := some "decide"
      tool_calls := state.tool_calls ++ [⟨"decision_making"⟩] }

/-! ## The two graphs (`src/workflows/graph.py`, `src/workflows/agentic_graph.py`) -/

/-- The node names of the two LangGraph graphs. -/
inductive GNode where
  | validate
  | enrich
  | retrieveGuidelines
  | uwAssess
  | citationGuardrail
  | rate
  | decide
  | handleMissingInfo
deriving DecidableEq, Repr

/-- Running one named node on the state; `none` models an exception
escaping the node. -/
def apply_node (C : Collaborators) (node : GNode) (s : WorkflowState) :
    Option WorkflowState :=
  match node with
  | .validate => some (validate_submission s)
  | .enrich => some (enrich_data C s)
  | .retrieveGuidelines => some (retrieve_guidelines C s)
  | .uwAssess => some (assess_underwriting s)
  | .citationGuardrail => some (apply_citation_guardrail s)
  | .rate => rate_policy s
  | .decide => make_decision s
  | .handleMissingInfo => handle_missing_info s

/-- `check_decision_loop` from `agentic_graph.py`: a REFER decision with
required questions re-enters the missing-info handler. -/
def needs_questions (s : WorkflowState) : Bool :=
  match s.decision with
  | some d => d.decision == .REFER && !d.required_questions.isEmpty
  | none => false

/-- The edge map of the basic graph (`graph.py`); `none` is `END`.  The
guardrail and missing-info nodes are not part of this graph. -/
def next_basic (node : GNode) (s : WorkflowState) : Option GNode :=
  match node with
  | .validate => if s.missing_info ≠ [] then some .decide else some .enrich
  | .enrich => some .retrieveGuidelines
  | .retrieveGuidelines => some .uwAssess
  | .uwAssess => some .rate
  | .rate => some .decide
  | .decide => none
  | .citationGuardrail => none
  | .handleMissingInfo => none

/-- The edge map of the agentic graph (`agentic_graph.py`); `none` is `END`. -/
def next_agentic (node : GNode) (s : WorkflowState) : Option GNode :=
  match node with
  | .validate => if s.missing_info ≠ [] then some .handleMissingInfo else some .enrich
  | .handleMissingInfo => if s.missing_info ≠ [] then some .decide else some .enrich
  | .enrich => some .retrieveGuidelines
  | .retrieveGuidelines => some .uwAssess
  | .uwAssess => some .citationGuardrail
  | .citationGuardrail =>
    if s.citation_guardrail_triggered then some .decide else some .rate
  | .rate => some .decide
  | .decide => if needs_questions s then some .handleMissingInfo else none

/-- Outcome of a fuelled run: a terminal state, an escaped exception, or
fuel exhaustion (the run was still moving when the step budget ran out). -/
inductive RunOutcome where
  | done (s : WorkflowState)
  | crash
  | fuelOut
deriving DecidableEq, Repr

/-- The graph interpreter: run the current node, then follow the edge map. -/
def run_from (C : Collaborators) (next : GNode → WorkflowState → Option GNode) :
    Nat → GNode → WorkflowState → RunOutcome
  | 0, _, _ => .fuelOut
  | fuel + 1, node, s =>
    match apply_node C node s with
    | none => .crash
    | some s₂ =>
      match next node s₂ with
      | none => .done s₂
      | some node₂ => run_from C next fuel node₂ s₂

/-- The initial `WorkflowState` built by the two `run_*_workflow` entry
points (`current_node="start"`, optional answers map). -/
def init_state (submission : QuoteSubmission) (answers : List (String × AnsVal)) :
    WorkflowState :=
  { quote_submission := submission
    enrichment_result := none
    retrieved_guidelines := []
    uw_assessment := none
    decision := none
    premium_breakdown := none
    tool_calls := []
    current_node := some "start"
    missing_info := []
    additional_answers := answers
    citation_guardrail_triggered := false }

/-- `run_underwriting_workflow` (basic variant). -/
def run_basic (C : Collaborators) (fuel : Nat) (submission : QuoteSubmission) :
    RunOutcome :=
  run_from C next_basic fuel .validate (init_state submission [])

/-- `run_agentic_underwriting_workflow` (interactive variant). -/
def run_agentic (C : Collaborators) (fuel : Nat) (submission : QuoteSubmission)
    (answers : List (String × AnsVal)) : RunOutcome :=
  run_from C next_agentic fuel .validate (init_state submission answers)

/-- Projection used to state properties of a finished run. -/
def outcome_state : RunOutcome → Option WorkflowState
  | .done s => some s
  | _ => none

/-! ## Spec-side definitions (for the refinement claims)

These follow the wording of spec §4.5 and are compared against
`assess_core`, which is translated from the source. -/

/-- Spec §4.5: 0.3 off for a property type outside the eligible set. -/
def spec_property_deduction (sub : QuoteSubmission) : ℚ :=
  if sub.property_type ∉ ["single_family", "condo", "townhouse"] then 3 / 10 else 0

/-- Claim C8's reading of §4.5: 0.2 off whenever a construction year is
present and is before 1940. -/
def spec_cy_deduction_claim (sub : QuoteSubmission) : ℚ :=
  match sub.construction_year with
  | some y => if y < 1940 then 1 / 5 else 0
  | none => 0

/-- The deduction the source applies: the year must also be truthy
(nonzero), because the source guards with `if submission.construction_year:`. -/
def spec_cy_deduction (sub : QuoteSubmission) : ℚ :=
  if intTruthy sub.construction_year ∧ sub.construction_year.getD 0 < 1940 then 1 / 5
  else 0

/-- Spec §4.5: 0.3 off above 0.7 wildfire risk, 0.1 off in (0.5, 0.7]. -/
def spec_wildfire_deduction (e : EnrichmentResult) : ℚ :=
  if e.hazard_scores.wildfire_risk > 7 / 10 then 3 / 10
  else if e.hazard_scores.wildfire_risk > 1 / 2 then 1 / 10
  else 0

/-- Spec §4.5: 0.3 off above 0.7 flood risk. -/
def spec_flood_deduction (e : EnrichmentResult) : ℚ :=
  if e.hazard_scores.flood_risk > 7 / 10 then 3 / 10 else 0

/-- Claim C8's eligibility formula: 0.8 minus the listed deductions,
clamped, with the construction-year deduction taken at face value. -/
def spec_eligibility_claim (sub : QuoteSubmission) (e : EnrichmentResult) : ℚ :=
  clamp01 (8 / 10 - spec_property_deduction sub - spec_cy_deduction_claim sub -
    spec_wildfire_deduction e - spec_flood_deduction e)

/-- The eligibility formula amended to the source's truthiness guard. -/
def spec_eligibility (sub : QuoteSubmission) (e : EnrichmentResult) : ℚ :=
  clamp01 (8 / 10 - spec_property_deduction sub - spec_cy_deduction sub -
    spec_wildfire_deduction e - spec_flood_deduction e)

/-- Spec §4.5 citations: every keyword-bearing chunk, in order, without
deduplication, rendered `doc_id:section`. -/
def spec_citations (guidelines : List RetrievalChunk) : List String :=
  (guidelines.filter chunkHasKeyword).map citationKey

/-- Spec §4.5 confidence: 0.85 with citations, 0.6 without. -/
def spec_confidence (guidelines : List RetrievalChunk) : ℚ :=
  if spec_citations guidelines ≠ [] then 17 / 20 else 3 / 5

/-! ## Concrete instances used by the claim theorems -/

/-- A fixed normalized address in Los Angeles County. -/
def addr0 : NormalizedAddress :=
  ⟨"123 Main St", "Los Angeles", "CA", "90210", none, none, some "Los Angeles County"⟩

/-- A guideline chunk whose text contains the keyword `risk`. -/
def chunk_risk : RetrievalChunk := ⟨"GUIDE-1", "v1", "s1", "c1", "Wildfire risk guidance"⟩

/-- A guideline chunk containing none of the four citation keywords. -/
def chunk_plain : RetrievalChunk := ⟨"GUIDE-1", "v1", "s2", "c2", "General notes"⟩

/-- Collaborators returning fixed outputs. -/
def const_collab (hs : HazardScores) (chunks : List RetrievalChunk) : Collaborators :=
  ⟨fun _ => addr0, fun _ => hs, fun _ => chunks⟩

/-- Uniform low hazard scores. -/
def low_hazards : HazardScores := ⟨3 / 10, 3 / 10, 3 / 10, 3 / 10⟩

/-- Collaborators whose retrieval returns only the keyword-bearing chunk. -/
def risk_collab : Collaborators := const_collab low_hazards [chunk_risk]

/-- Collaborators whose retrieval returns only the keyword-free chunk. -/
def plain_collab : Collaborators := const_collab low_hazards [chunk_plain]

/-- A fully valid submission (year 2000 build). -/
def c1_sub : QuoteSubmission :=
  ⟨"John Doe", "123 Main St, Los Angeles, CA 90210", "single_family", 250000,
    some 2000, some 2000, none, none, none⟩

/-- A valid submission built in 1930 (pre-1940 trigger and follow-up
question, eligibility 0.6). -/
def c3_sub : QuoteSubmission :=
  ⟨"John Doe", "123 Main St, Los Angeles, CA 90210", "single_family", 250000,
    some 1930, none, none, none, none⟩

/-- The incomplete submission of the spec's §8 scenario: empty applicant
name, no construction year, no square footage. -/
def c5_sub : QuoteSubmission :=
  ⟨"", "789 Pine St, Beverly Hills, CA 90210", "single_family", 500000,
    none, none, none, none, none⟩

/-- A valid submission lacking only `construction_year`. -/
def c6_sub : QuoteSubmission :=
  ⟨"John Doe", "123 Main St, Los Angeles, CA 90210", "single_family", 250000,
    none, some 2000, none, none, none⟩

/-- A submission whose construction year is the (falsy) integer 0. -/
def c8_sub : QuoteSubmission :=
  ⟨"Jane Roe", "1 Elm St, Fresno, CA 93650", "single_family", 100000,
    some 0, none, none, none, none⟩

/-- Enrichment paired with `c8_sub` in the C8 counterexample. -/
def c8_enr : EnrichmentResult :=
  ⟨addr0, low_hazards, ⟨"single_family", some 0, none, none, none⟩⟩

/-- An assessment with score 0.8, no triggers and no citations, as the
assessment node produces it when retrieval returns nothing usable. -/
def a08 : UWAssessment :=
  ⟨4 / 5, [], [], "No significant risk factors identified; Eligibility score: 0.80",
    [], 3 / 5⟩

/-- A state as it stands right after the citation guardrail fired:
guardrail REFER stored, flag set, no missing info, citation-free
assessment. -/
def c2_state : WorkflowState :=
  ⟨c1_sub, none, [chunk_plain], some a08, some guardrail_decision, none,
    [⟨"citation_guardrail"⟩], some "citation_guardrail", [], [], true⟩

/-! Literal values recurring in the C3 divergence proof: the enrichment,
assessment, premium and decisions the cycle recomputes each lap. -/

/-- The enrichment result every `enrich` lap recomputes for `c3_sub`. -/
def e3 : EnrichmentResult :=
  ⟨addr0, low_hazards, ⟨"single_family", some 1930, none, none, none⟩⟩

/-- The assessment every `uw_assess` lap recomputes for `c3_sub`. -/
def a3 : UWAssessment :=
  ⟨3 / 5,
    [⟨"construction_age", "Property constructed before 1940 requires additional review",
      "medium", true⟩],
    [construction_updates_question],
    "Identified 1 risk factors:; - Property constructed before 1940 requires additional review; Eligibility score: 0.60",
    ["GUIDE-1:s1"], 17 / 20⟩

/-- The premium every `rate` lap recomputes for `c3_sub`. -/
def p3 : PremiumBreakdown :=
  ⟨750, 315, 1065,
    [("base_rate", 5 / 2), ("property_multiplier", 1), ("hazard_load", 21 / 50),
      ("construction_surcharge", 6 / 5)]⟩

/-- The rule-5 manual-review REFER `decide` emits each lap. -/
def d3 : Decision :=
  ⟨.REFER, "Property requires manual review. Score: 0.60", ["GUIDE-1:s1"], none,
    [construction_updates_question],
    ["Underwriter manual review", "Additional documentation may be required"]⟩

/-- The question-free REFER `handle_missing_info` emits each lap (its
missing-field list is empty). -/
def dh : Decision :=
  ⟨.REFER, "Additional information required: ", [], none, [],
    ["Provide missing information and resubmit"]⟩

/-- The family of states the C3 run cycles through: everything is pinned
except the stored decision, the current-node label and the growing
ToolCall log. -/
def c3_st (d : Option Decision) (cn : String) (tc : List ToolCall) : WorkflowState :=
  ⟨c3_sub, some e3, [chunk_risk], some a3, d, some p3, tc, some cn, [], [], false⟩

/-- The ToolCall log at the first `decide` entry of the C3 run. -/
def tc0 : List ToolCall :=
  [⟨"validate_submission"⟩, ⟨"address_normalize"⟩, ⟨"hazard_score"⟩, ⟨"rag_retrieval"⟩,
    ⟨"underwriting_assessment"⟩, ⟨"rating_calculation"⟩]

/-! ## Pipeline values for the C7 variant comparison

For a submission that passes validation, both graphs enrich, retrieve
and assess the unchanged submission; these are those shared values. -/

/-- The chunks either variant retrieves for a submission that passed
validation. -/
def pipe_chunks (C : Collaborators) (sub : QuoteSubmission) : List RetrievalChunk :=
  C.retrieve (build_query sub (some (enrichment_of C sub)))

/-- The assessment either variant computes for such a submission. -/
def pipe_assessment (C : Collaborators) (sub : QuoteSubmission) : UWAssessment :=
  assess_core sub (some (enrichment_of C sub)) (pipe_chunks C sub)

/-- The premium either variant computes when rating runs. -/
def pipe_premium (C : Collaborators) (sub : QuoteSubmission) : PremiumBreakdown :=
  calculate_premium sub.coverage_amount sub.property_type
    (enrichment_of C sub).hazard_scores sub.construction_year

/-- The decision `make_decision` computes after a clean pass with rating. -/
def pipe_decision (C : Collaborators) (sub : QuoteSubmission) : Decision :=
  decision_for (pipe_assessment C sub) [] (some (pipe_premium C sub))

def a08_cited : UWAssessment :=
  ⟨4 / 5, [], [], "No significant risk factors identified; Eligibility score: 0.80",
    ["GUIDE-1:s1"], 17 / 20⟩

def tc_guard : List ToolCall :=
  [⟨"validate_submission"⟩, ⟨"address_normalize"⟩, ⟨"hazard_score"⟩, ⟨"rag_retrieval"⟩,
    ⟨"underwriting_assessment"⟩, ⟨"citation_guardrail"⟩]

def pre_decide_clean (C : Collaborators) (sub : QuoteSubmission)
    (ans : List (String × AnsVal)) : WorkflowState :=
  ⟨sub, some (enrichment_of C sub), pipe_chunks C sub, some (pipe_assessment C sub),
    none, some (pipe_premium C sub), tc0, some "rate", [], ans, false⟩

def pre_decide_guard (C : Collaborators) (sub : QuoteSubmission)
    (ans : List (String × AnsVal)) : WorkflowState :=
  ⟨sub, some (enrichment_of C sub), pipe_chunks C sub, some (pipe_assessment C sub),
    some guardrail_decision, none, tc_guard, some "citation_guardrail", [], ans, true⟩


/-! ## Theorems -/

/-! ## Step lemmas for the graph interpreter -/

theorem step_val_clean_ag (C : Collaborators) (n : Nat) (s : WorkflowState)
    (h : validate_missing s.quote_submission = []) :
    run_from C next_agentic (n + 1) .validate s =
    run_from C next_agentic n .enrich (validate_submission s) := by
  simp [run_from, apply_node, next_agentic, validate_submission, h]

theorem step_val_clean_b (C : Collaborators) (n : Nat) (s : WorkflowState)
    (h : validate_missing s.quote_submission = []) :
    run_from C next_basic (n + 1) .validate s =
    run_from C next_basic n .enrich (validate_submission s) := by
  simp [run_from, apply_node, next_basic, validate_submission, h]

theorem step_val_missing_b (C : Collaborators) (n : Nat) (s : WorkflowState)
    (h : validate_missing s.quote_submission ≠ []) :
    run_from C next_basic (n + 1) .validate s =
    run_from C next_basic n .decide (validate_submission s) := by
  simp [run_from, apply_node, next_basic, validate_submission, h]

theorem step_enrich_ag (C : Collaborators) (n : Nat) (s : WorkflowState) :
    run_from C next_agentic (n + 1) .enrich s =
    run_from C next_agentic n .retrieveGuidelines (enrich_data C s) := by
  simp [run_from, apply_node, next_agentic]

theorem step_enrich_b (C : Collaborators) (n : Nat) (s : WorkflowState) :
    run_from C next_basic (n + 1) .enrich s =
    run_from C next_basic n .retrieveGuidelines (enrich_data C s) := by
  simp [run_from, apply_node, next_basic]

theorem step_retrieve_ag (C : Collaborators) (n : Nat) (s : WorkflowState) :
    run_from C next_agentic (n + 1) .retrieveGuidelines s =
    run_from C next_agentic n .uwAssess (retrieve_guidelines C s) := by
  simp [run_from, apply_node, next_agentic]

theorem step_retrieve_b (C : Collaborators) (n : Nat) (s : WorkflowState) :
    run_from C next_basic (n + 1) .retrieveGuidelines s =
    run_from C next_basic n .uwAssess (retrieve_guidelines C s) := by
  simp [run_from, apply_node, next_basic]

theorem step_assess_ag (C : Collaborators) (n : Nat) (s : WorkflowState) :
    run_from C next_agentic (n + 1) .uwAssess s =
    run_from C next_agentic n .citationGuardrail (assess_underwriting s) := by
  simp [run_from, apply_node, next_agentic]

theorem step_assess_b (C : Collaborators) (n : Nat) (s : WorkflowState) :
    run_from C next_basic (n + 1) .uwAssess s =
    run_from C next_basic n .rate (assess_underwriting s) := by
  simp [run_from, apply_node, next_basic]

theorem step_guard_fire_ag (C : Collaborators) (n : Nat) (s : WorkflowState)
    (a : UWAssessment) (h : s.uw_assessment = some a) (ha : a.citations = []) :
    run_from C next_agentic (n + 1) .citationGuardrail s =
    run_from C next_agentic n .decide
      { s with
          decision := some guardrail_decision
          citation_guardrail_triggered := true
          tool_calls := s.tool_calls ++ [⟨"citation_guardrail"⟩]
          current_node := some "citation_guardrail" } := by
  simp [run_from, apply_node, next_agentic, apply_citation_guardrail, h, ha]

theorem step_guard_pass_ag (C : Collaborators) (n : Nat) (s : WorkflowState)
    (a : UWAssessment) (h : s.uw_assessment = some a) (ha : a.citations ≠ []) :
    run_from C next_agentic (n + 1) .citationGuardrail s =
    run_from C next_agentic n .rate
      { s with
          citation_guardrail_triggered := false
          current_node := some "citation_guardrail" } := by
  simp [run_from, apply_node, next_agentic, apply_citation_guardrail, h, ha]

theorem step_rate_ag (C : Collaborators) (n : Nat) (s : WorkflowState)
    (e : EnrichmentResult) (h : s.enrichment_result = some e) :
    run_from C next_agentic (n + 1) .rate s =
    run_from C next_agentic n .decide
      { s with
          premium_breakdown := some (calculate_premium s.quote_submission.coverage_amount
            s.quote_submission.property_type e.hazard_scores
            s.quote_submission.construction_year)
          current_node := some "rate"
          tool_calls := s.tool_calls ++ [⟨"rating_calculation"⟩] } := by
  simp [run_from, apply_node, next_agentic, rate_policy, h]

theorem step_rate_b (C : Collaborators) (n : Nat) (s : WorkflowState)
    (e : EnrichmentResult) (h : s.enrichment_result = some e) :
    run_from C next_basic (n + 1) .rate s =
    run_from C next_basic n .decide
      { s with
          premium_breakdown := some (calculate_premium s.quote_submission.coverage_amount
            s.quote_submission.property_type e.hazard_scores
            s.quote_submission.construction_year)
          current_node := some "rate"
          tool_calls := s.tool_calls ++ [⟨"rating_calculation"⟩] } := by
  simp [run_from, apply_node, next_basic, rate_policy, h]

theorem step_decide_crash (C : Collaborators)
    (nx : GNode → WorkflowState → Option GNode) (n : Nat) (s : WorkflowState)
    (h : s.uw_assessment = none) :
    run_from C nx (n + 1) .decide s = .crash := by
  simp [run_from, apply_node, make_decision, h]

theorem step_decide_end_ag (C : Collaborators) (n : Nat) (s : WorkflowState)
    (a : UWAssessment) (h : s.uw_assessment = some a)
    (hd : ¬((decision_for a s.missing_info s.premium_breakdown).decision = .REFER ∧
      (decision_for a s.missing_info s.premium_breakdown).required_questions ≠ [])) :
    run_from C next_agentic (n + 1) .decide s =
    .done { s with
        decision := some (decision_for a s.missing_info s.premium_breakdown)
        current_node := some "decide"
        tool_calls := s.tool_calls ++ [⟨"decision_making"⟩] } := by
  have hb : ((decision_for a s.missing_info s.premium_breakdown).decision ==
      DecisionType.REFER &&
      !(decision_for a s.missing_info s.premium_breakdown).required_questions.isEmpty) = false := by
    by_cases hr : (decision_for a s.missing_info s.premium_breakdown).decision = .REFER
    · have hq : (decision_for a s.missing_info s.premium_breakdown).required_questions = [] := by
        by_contra hq
        exact hd ⟨hr, hq⟩
      simp [hr, hq]
    · simp [hr]
  simp [run_from, apply_node, make_decision, h, next_agentic, needs_questions, hb]

theorem step_decide_loop_ag (C : Collaborators) (n : Nat) (s : WorkflowState)
    (a : UWAssessment) (h : s.uw_assessment = some a)
    (hr : (decision_for a s.missing_info s.premium_breakdown).decision = .REFER)
    (hq : (decision_for a s.missing_info s.premium_breakdown).required_questions ≠ []) :
    run_from C next_agentic (n + 1) .decide s =
    run_from C next_agentic n .handleMissingInfo
      { s with
          decision := some (decision_for a s.missing_info s.premium_breakdown)
          current_node := some "decide"
          tool_calls := s.tool_calls ++ [⟨"decision_making"⟩] } := by
  simp [run_from, apply_node, make_decision, h, next_agentic, needs_questions, hr, hq]

theorem step_decide_end_b (C : Collaborators) (n : Nat) (s : WorkflowState)
    (a : UWAssessment) (h : s.uw_assessment = some a) :
    run_from C next_basic (n + 1) .decide s =
    .done { s with
        decision := some (decision_for a s.missing_info s.premium_breakdown)
        current_node := some "decide"
        tool_calls := s.tool_calls ++ [⟨"decision_making"⟩] } := by
  simp [run_from, apply_node, make_decision, h, next_basic]

theorem step_handle_answers_ag (C : Collaborators) (n : Nat) (s : WorkflowState)
    (sub₂ : QuoteSubmission) (h : s.additional_answers ≠ [])
    (ha : applyAnswers s.quote_submission s.additional_answers = some sub₂) :
    run_from C next_agentic (n + 1) .handleMissingInfo s =
    run_from C next_agentic n .enrich
      { s with
          quote_submission := sub₂
          missing_info := []
          tool_calls := s.tool_calls ++ [⟨"process_additional_answers"⟩]
          current_node := some "handle_missing_info" } := by
  simp [run_from, apply_node, next_agentic, handle_missing_info, h, ha]

theorem step_handle_noans_still_ag (C : Collaborators) (n : Nat) (s : WorkflowState)
    (h : s.additional_answers = []) (hm : s.missing_info ≠ []) :
    run_from C next_agentic (n + 1) .handleMissingInfo s =
    run_from C next_agentic n .decide
      { s with
          decision := some
            { decision := .REFER
              rationale := "Additional information required: " ++
                String.intercalate ", " s.missing_info
              citations := []
              premium := none
              required_questions := s.missing_info.map missing_question
              next_steps := ["Provide missing information and resubmit"] }
          tool_calls := s.tool_calls ++ [⟨"generate_missing_info_questions"⟩]
          current_node := some "handle_missing_info" } := by
  simp [run_from, apply_node, next_agentic, handle_missing_info, h, hm]

theorem step_handle_noans_resolved_ag (C : Collaborators) (n : Nat) (s : WorkflowState)
    (h : s.additional_answers = []) (hm : s.missing_info = []) :
    run_from C next_agentic (n + 1) .handleMissingInfo s =
    run_from C next_agentic n .enrich
      { s with
          decision := some
            { decision := .REFER
              rationale := "Additional information required: " ++
                String.intercalate ", " s.missing_info
              citations := []
              premium := none
              required_questions := s.missing_info.map missing_question
              next_steps := ["Provide missing information and resubmit"] }
          tool_calls := s.tool_calls ++ [⟨"generate_missing_info_questions"⟩]
          current_node := some "handle_missing_info" } := by
  simp [run_from, apply_node, next_agentic, handle_missing_info, h, hm]





theorem agentic_clean_start (C : Collaborators) (sub : QuoteSubmission)
    (ans : List (String × AnsVal)) (n : Nat)
    (h1 : validate_missing sub = [])
    (h2 : (pipe_assessment C sub).citations ≠ []) :
    run_from C next_agentic (n + 6) .validate (init_state sub ans) =
    run_from C next_agentic n .decide (pre_decide_clean C sub ans) := by
  show run_from C next_agentic ((n + 5) + 1) .validate (init_state sub ans) = _
  rw [step_val_clean_ag _ _ _ h1]
  show run_from C next_agentic ((n + 4) + 1) .enrich _ = _
  rw [step_enrich_ag]
  show run_from C next_agentic ((n + 3) + 1) .retrieveGuidelines _ = _
  rw [step_retrieve_ag]
  show run_from C next_agentic ((n + 2) + 1) .uwAssess _ = _
  rw [step_assess_ag]
  show run_from C next_agentic ((n + 1) + 1) .citationGuardrail _ = _
  rw [step_guard_pass_ag _ _ _ (pipe_assessment C sub) rfl h2]
  show run_from C next_agentic (n + 1) .rate _ = _
  rw [step_rate_ag _ _ _ (enrichment_of C sub) rfl]
  simp only [pre_decide_clean, assess_underwriting, retrieve_guidelines, enrich_data,
    validate_submission, init_state, pipe_assessment, pipe_chunks, pipe_premium,
    enrichment_of, tc0, h1, List.append_assoc, List.nil_append, List.cons_append,
    List.append_nil]


theorem agentic_guard_start (C : Collaborators) (sub : QuoteSubmission)
    (ans : List (String × AnsVal)) (n : Nat)
    (h1 : validate_missing sub = [])
    (h2 : (pipe_assessment C sub).citations = []) :
    run_from C next_agentic (n + 5) .validate (init_state sub ans) =
    run_from C next_agentic n .decide (pre_decide_guard C sub ans) := by
  show run_from C next_agentic ((n + 4) + 1) .validate (init_state sub ans) = _
  rw [step_val_clean_ag _ _ _ h1]
  show run_from C next_agentic ((n + 3) + 1) .enrich _ = _
  rw [step_enrich_ag]
  show run_from C next_agentic ((n + 2) + 1) .retrieveGuidelines _ = _
  rw [step_retrieve_ag]
  show run_from C next_agentic ((n + 1) + 1) .uwAssess _ = _
  rw [step_assess_ag]
  show run_from C next_agentic (n + 1) .citationGuardrail _ = _
  rw [step_guard_fire_ag _ _ _ (pipe_assessment C sub) rfl h2]
  simp only [pre_decide_guard, assess_underwriting, retrieve_guidelines, enrich_data,
    validate_submission, init_state, pipe_assessment, pipe_chunks, enrichment_of,
    tc_guard, h1, List.append_assoc, List.nil_append, List.cons_append, List.append_nil]

theorem basic_clean_start (C : Collaborators) (sub : QuoteSubmission) (n : Nat)
    (h1 : validate_missing sub = []) :
    run_from C next_basic (n + 5) .validate (init_state sub []) =
    run_from C next_basic n .decide (pre_decide_clean C sub []) := by
  show run_from C next_basic ((n + 4) + 1) .validate (init_state sub []) = _
  rw [step_val_clean_b _ _ _ h1]
  show run_from C next_basic ((n + 3) + 1) .enrich _ = _
  rw [step_enrich_b]
  show run_from C next_basic ((n + 2) + 1) .retrieveGuidelines _ = _
  rw [step_retrieve_b]
  show run_from C next_basic ((n + 1) + 1) .uwAssess _ = _
  rw [step_assess_b]
  show run_from C next_basic (n + 1) .rate _ = _
  rw [step_rate_b _ _ _ (enrichment_of C sub) rfl]
  simp only [pre_decide_clean, assess_underwriting, retrieve_guidelines, enrich_data,
    validate_submission, init_state, pipe_assessment, pipe_chunks, pipe_premium,
    enrichment_of, tc0, h1, List.append_assoc, List.nil_append, List.cons_append,
    List.append_nil]

theorem basic_missing_crash (C : Collaborators) (sub : QuoteSubmission) (n : Nat)
    (h1 : validate_missing sub ≠ []) :
    run_from C next_basic (n + 2) .validate (init_state sub []) = .crash := by
  show run_from C next_basic ((n + 1) + 1) .validate (init_state sub []) = _
  rw [step_val_missing_b _ _ _ h1]
  exact step_decide_crash _ _ _ _ rfl


theorem validate_c1 : validate_missing c1_sub = [] := by
  norm_num [validate_missing, c1_sub, intTruthy]
  decide

theorem fmt2_08 : fmt2 (4 / 5) = "0.80" := by
  norm_num [fmt2, bankersRound, round_eq, centsRender]
  decide

theorem fmt2_06 : fmt2 (3 / 5) = "0.60" := by
  norm_num [fmt2, bankersRound, round_eq, centsRender]
  decide

theorem citations_plain : citationsOf [chunk_plain] = [] := by decide

theorem citations_risk : citationsOf [chunk_risk] = ["GUIDE-1:s1"] := by decide

theorem assess_plain_c1 : pipe_assessment plain_collab c1_sub = a08 := by
  norm_num [pipe_assessment, assess_core, pipe_chunks, enrichment_of, plain_collab,
    const_collab, c1_sub, chunk_plain, low_hazards, addr0, intTruthy, citations_plain,
    clamp01, fmt2_08, a08]
  decide

theorem decision_c1 : decision_for a08 [] none =
    { decision := .ACCEPT
      rationale := "Property meets eligibility criteria. Score: 0.80"
      citations := []
      premium := none
      required_questions := []
      next_steps := ["Policy issuance", "Payment collection", "Policy document delivery"] } := by
  norm_num [decision_for, a08, fmt2_08]
  decide



theorem validate_c5 : validate_missing c5_sub = ["applicant_name"] := by
  norm_num [validate_missing, c5_sub, intTruthy]
  decide

theorem validate_c6 : validate_missing c6_sub = [] := by
  norm_num [validate_missing, c6_sub, intTruthy]
  decide

theorem assess_risk_c1 : pipe_assessment risk_collab c1_sub = a08_cited := by
  norm_num [pipe_assessment, assess_core, pipe_chunks, enrichment_of, risk_collab,
    const_collab, c1_sub, chunk_risk, low_hazards, addr0, intTruthy, citations_risk,
    clamp01, fmt2_08, a08_cited]
  decide

theorem assess_risk_c6 : pipe_assessment risk_collab c6_sub = a08_cited := by
  norm_num [pipe_assessment, assess_core, pipe_chunks, enrichment_of, risk_collab,
    const_collab, c6_sub, chunk_risk, low_hazards, addr0, intTruthy, citations_risk,
    clamp01, fmt2_08, a08_cited]
  decide

theorem dec_cited_decision (P : Option PremiumBreakdown) :
    (decision_for a08_cited [] P).decision = .ACCEPT := by
  norm_num [decision_for, a08_cited]

theorem dec_cited_questions (P : Option PremiumBreakdown) :
    (decision_for a08_cited [] P).required_questions = [] := by
  norm_num [decision_for, a08_cited]

/-- Claim C1 (code_bug): a run whose assessment has no citations ends
with decision ACCEPT — the guardrail's REFER is overwritten by
`make_decision` — although the guardrail flag is set and rating was
skipped. -/
theorem c1_citation_guardrail_violated :
    (outcome_state (run_agentic plain_collab 10 c1_sub [])).map (fun s =>
      (s.uw_assessment.map UWAssessment.citations, s.decision.map Decision.decision,
       s.citation_guardrail_triggered,
       s.tool_calls.any (fun t => t.tool_name == "rating_calculation"))) =
    some (some [], some .ACCEPT, true, false) := by
  have hrun : run_agentic plain_collab 10 c1_sub [] =
      .done { pre_decide_guard plain_collab c1_sub [] with
        decision := some (decision_for a08 [] none)
        current_node := some "decide"
        tool_calls := tc_guard ++ [⟨"decision_making"⟩] } := by
    show run_from plain_collab next_agentic (5 + 5) .validate (init_state c1_sub []) = _
    rw [agentic_guard_start _ _ _ _ validate_c1 (by rw [assess_plain_c1]; rfl)]
    show run_from plain_collab next_agentic (4 + 1) .decide _ = _
    rw [step_decide_end_ag _ _ _ a08 (by simp [pre_decide_guard, assess_plain_c1])
      (by simp [pre_decide_guard, decision_c1])]
    rfl
  rw [hrun]
  simp only [outcome_state, pre_decide_guard, Option.map_some, decision_c1]
  decide

/-- Claim C2 (code_bug): with the guardrail flag set and its REFER in
place, `make_decision` recomputes the decision from the assessment and
overwrites the REFER with an ACCEPT. -/
theorem c2_decide_overwrites_guardrail :
    (make_decision c2_state).map (fun s => s.decision.map Decision.decision) =
      some (some .ACCEPT) ∧
    c2_state.decision.map Decision.decision = some .REFER ∧
    c2_state.citation_guardrail_triggered = true := by
  refine ⟨?_, rfl, rfl⟩
  simp [make_decision, c2_state, decision_c1]

/-- Claim C5 (code_bug): for the incomplete submission, validation flags
only the empty applicant name — the absent construction year and square
footage are never checked — and the basic-mode run then crashes inside
`make_decision` (no assessment exists to log) instead of returning REFER. -/
theorem c5_incomplete_submission :
    validate_missing c5_sub = ["applicant_name"] ∧
    run_basic risk_collab 10 c5_sub = .crash := by
  refine ⟨validate_c5, ?_⟩
  show run_from risk_collab next_basic (8 + 2) .validate (init_state c5_sub []) = _
  exact basic_missing_crash _ _ _ (by simp [validate_c5])

/-- Claim C6 (code_bug): a submission lacking only `construction_year`
passes validation, so the interactive run never asks
`missing_construction_year` (it accepts outright), and re-running with
answers never merges them (the missing-info handler never runs). -/
theorem c6_round_trip_fails :
    (outcome_state (run_agentic risk_collab 10 c6_sub [])).map (fun s =>
      (s.decision.map Decision.decision, s.decision.map Decision.required_questions)) =
      some (some .ACCEPT, some []) ∧
    (outcome_state (run_agentic risk_collab 10 c6_sub
        [("construction_year", .vInt 1995)])).map (fun s =>
      (s.quote_submission.construction_year, s.missing_info)) = some (none, []) := by
  constructor
  · have hrun : run_agentic risk_collab 10 c6_sub [] =
        .done { pre_decide_clean risk_collab c6_sub [] with
          decision := some (decision_for a08_cited []
            (some (pipe_premium risk_collab c6_sub)))
          current_node := some "decide"
          tool_calls := tc0 ++ [⟨"decision_making"⟩] } := by
      show run_from risk_collab next_agentic (4 + 6) .validate (init_state c6_sub []) = _
      rw [agentic_clean_start _ _ _ _ validate_c6 (by rw [assess_risk_c6]; decide)]
      show run_from risk_collab next_agentic (3 + 1) .decide _ = _
      rw [step_decide_end_ag _ _ _ a08_cited (by simp [pre_decide_clean, assess_risk_c6])
        (by simp [pre_decide_clean, dec_cited_decision])]
      rfl
    rw [hrun]
    simp [outcome_state, dec_cited_decision, dec_cited_questions]
  · have hrun : run_agentic risk_collab 10 c6_sub [("construction_year", .vInt 1995)] =
        .done { pre_decide_clean risk_collab c6_sub [("construction_year", .vInt 1995)] with
          decision := some (decision_for a08_cited []
            (some (pipe_premium risk_collab c6_sub)))
          current_node := some "decide"
          tool_calls := tc0 ++ [⟨"decision_making"⟩] } := by
      show run_from risk_collab next_agentic (4 + 6) .validate
        (init_state c6_sub [("construction_year", .vInt 1995)]) = _
      rw [agentic_clean_start _ _ _ _ validate_c6 (by rw [assess_risk_c6]; decide)]
      show run_from risk_collab next_agentic (3 + 1) .decide _ = _
      rw [step_decide_end_ag _ _ _ a08_cited (by simp [pre_decide_clean, assess_risk_c6])
        (by simp [pre_decide_clean, dec_cited_decision])]
      rfl
    rw [hrun]
    simp [outcome_state, pre_decide_clean, c6_sub]

/-- Claim C7 counterexample: on a run whose assessment has no citations,
the two variants end in different terminal states (the basic graph has
no guardrail node: it rates and leaves the flag unset). -/
theorem c7_variants_differ :
    validate_missing c1_sub = [] ∧
    run_basic plain_collab 10 c1_sub ≠ run_agentic plain_collab 10 c1_sub [] ∧
    (outcome_state (run_basic plain_collab 10 c1_sub)).map (fun s =>
      (s.citation_guardrail_triggered,
       s.tool_calls.any (fun t => t.tool_name == "rating_calculation"))) =
      some (false, true) ∧
    (outcome_state (run_agentic plain_collab 10 c1_sub [])).map (fun s =>
      (s.citation_guardrail_triggered,
       s.tool_calls.any (fun t => t.tool_name == "rating_calculation"))) =
      some (true, false) := by
  have hb : run_basic plain_collab 10 c1_sub =
      .done { pre_decide_clean plain_collab c1_sub [] with
        decision := some (decision_for a08 [] (some (pipe_premium plain_collab c1_sub)))
        current_node := some "decide"
        tool_calls := tc0 ++ [⟨"decision_making"⟩] } := by
    show run_from plain_collab next_basic (5 + 5) .validate (init_state c1_sub []) = _
    rw [basic_clean_start _ _ _ validate_c1]
    show run_from plain_collab next_basic (4 + 1) .decide _ = _
    rw [step_decide_end_b _ _ _ a08 (by simp [pre_decide_clean, assess_plain_c1])]
    rfl
  have ha : run_agentic plain_collab 10 c1_sub [] =
      .done { pre_decide_guard plain_collab c1_sub [] with
        decision := some (decision_for a08 [] none)
        current_node := some "decide"
        tool_calls := tc_guard ++ [⟨"decision_making"⟩] } := by
    show run_from plain_collab next_agentic (5 + 5) .validate (init_state c1_sub []) = _
    rw [agentic_guard_start _ _ _ _ validate_c1 (by rw [assess_plain_c1]; rfl)]
    show run_from plain_collab next_agentic (4 + 1) .decide _ = _
    rw [step_decide_end_ag _ _ _ a08 (by simp [pre_decide_guard, assess_plain_c1])
      (by simp [pre_decide_guard, decision_c1])]
    rfl
  refine ⟨validate_c1, ?_, ?_, ?_⟩
  · rw [hb, ha]
    intro h
    simp only [RunOutcome.done.injEq] at h
    have := congrArg WorkflowState.citation_guardrail_triggered h
    simp [pre_decide_clean, pre_decide_guard] at this
  · rw [hb]
    simp [outcome_state, pre_decide_clean, tc0]
  · rw [ha]
    simp [outcome_state, pre_decide_guard, tc_guard]

/-- Claim C7 amended: the variants share every node except
`handle_missing_info` and `citation_guardrail`; when validation passes,
the assessment is cited and the decision does not re-enter the
missing-info loop, both variants end in the identical terminal state. -/
theorem c7_variants_agree (C : Collaborators) (sub : QuoteSubmission)
    (h1 : validate_missing sub = [])
    (h2 : (pipe_assessment C sub).citations ≠ [])
    (h3 : ¬((pipe_decision C sub).decision = .REFER ∧
      (pipe_decision C sub).required_questions ≠ [])) :
    run_basic C 6 sub = run_agentic C 7 sub [] ∧
    ∃ s, run_basic C 6 sub = RunOutcome.done s := by
  have hb : run_basic C 6 sub =
      .done { pre_decide_clean C sub [] with
        decision := some (pipe_decision C sub)
        current_node := some "decide"
        tool_calls := tc0 ++ [⟨"decision_making"⟩] } := by
    show run_from C next_basic (1 + 5) .validate (init_state sub []) = _
    rw [basic_clean_start _ _ _ h1]
    show run_from C next_basic (0 + 1) .decide _ = _
    rw [step_decide_end_b _ _ _ (pipe_assessment C sub) rfl]
    rfl
  have ha : run_agentic C 7 sub [] =
      .done { pre_decide_clean C sub [] with
        decision := some (pipe_decision C sub)
        current_node := some "decide"
        tool_calls := tc0 ++ [⟨"decision_making"⟩] } := by
    show run_from C next_agentic (1 + 6) .validate (init_state sub []) = _
    rw [agentic_clean_start _ _ _ _ h1 h2]
    show run_from C next_agentic (0 + 1) .decide _ = _
    rw [step_decide_end_ag _ _ _ (pipe_assessment C sub) rfl (by exact h3)]
    rfl
  exact ⟨hb.trans ha.symm, _, hb⟩

/-- Witness for the amended C7 theorem at a concrete cited run. -/
theorem c7_variants_agree_witness :
    validate_missing c1_sub = [] ∧
    (pipe_assessment risk_collab c1_sub).citations ≠ [] ∧
    (run_basic risk_collab 6 c1_sub = run_agentic risk_collab 7 c1_sub [] ∧
      ∃ s, run_basic risk_collab 6 c1_sub = RunOutcome.done s) := by
  have h2 : (pipe_assessment risk_collab c1_sub).citations ≠ [] := by
    rw [assess_risk_c1]; decide
  have h3 : ¬((pipe_decision risk_collab c1_sub).decision = .REFER ∧
      (pipe_decision risk_collab c1_sub).required_questions ≠ []) := by
    simp [pipe_decision, assess_risk_c1, dec_cited_decision]
  exact ⟨validate_c1, h2, c7_variants_agree risk_collab c1_sub validate_c1 h2 h3⟩


theorem bankersRound_abs_le (x : ℚ) : |(bankersRound x : ℚ) - x| ≤ 1 / 2 := by
  unfold bankersRound
  split_ifs with h1 h2
  · rw [abs_sub_comm, show x - ((⌊x⌋ : ℤ) : ℚ) = 1 / 2 from h1,
      abs_of_nonneg (by norm_num : (0 : ℚ) ≤ 1 / 2)]
  · push_cast
    have hfr : x - (⌊x⌋ : ℚ) = 1 / 2 := h1
    rw [abs_of_nonneg (by linarith)]
    linarith
  · rw [abs_sub_comm]
    exact abs_sub_round x

theorem round2_cents (z : ℤ) : round2 ((z : ℚ) / 100) = (z : ℚ) / 100 := by
  unfold round2 bankersRound
  have h : (100 : ℚ) * ((z : ℚ) / 100) = (z : ℚ) := by ring
  rw [h]
  simp [Int.floor_intCast, round_intCast]

/-- Claim C4 counterexample: for coverage 401.6 with hazard risks
(0, 1, 0.5, 1), the rounded total is 2.01 while the rounded sum of the
rounded fields is 2.00: the identity over the returned fields fails. -/
theorem c4_rounded_identity_fails :
    (calculate_premium (2008 / 5) "single_family" ⟨0, 1, 1 / 2, 1⟩ none).total_premium ≠
    round2 ((calculate_premium (2008 / 5) "single_family" ⟨0, 1, 1 / 2, 1⟩ none).base_premium +
      (calculate_premium (2008 / 5) "single_family" ⟨0, 1, 1 / 2, 1⟩ none).hazard_surcharge) := by
  norm_num [calculate_premium, basePremiumRaw, hazardSurchargeRaw, property_multiplier,
    base_rate_per_1000, intTruthy, round2, bankersRound, round_eq]

/-- Claim C4 amended: the total premium is the 2-decimal rounding of the
unrounded base-plus-surcharge, so it can differ from
`round2(base_premium + hazard_surcharge)` over the returned (rounded)
fields by at most one cent. -/
theorem c4_total_premium_within_cent (coverage_amount : ℚ) (property_type : String)
    (hazard_scores : HazardScores) (construction_year : Option ℤ) :
    |(calculate_premium coverage_amount property_type hazard_scores
        construction_year).total_premium -
      round2 ((calculate_premium coverage_amount property_type hazard_scores
          construction_year).base_premium +
        (calculate_premium coverage_amount property_type hazard_scores
          construction_year).hazard_surcharge)| ≤ 1 / 100 := by
  set b := basePremiumRaw coverage_amount property_type construction_year with hb
  set h := hazardSurchargeRaw b hazard_scores with hh
  have hfields : (calculate_premium coverage_amount property_type hazard_scores
      construction_year) =
      { base_premium := round2 b, hazard_surcharge := round2 h,
        total_premium := round2 (b + h),
        rating_factors := ratingFactors b h property_type construction_year } := rfl
  rw [hfields]
  simp only
  have hsum : round2 b + round2 h =
      ((bankersRound (100 * b) + bankersRound (100 * h) : ℤ) : ℚ) / 100 := by
    unfold round2
    push_cast
    ring
  rw [hsum, round2_cents]
  unfold round2
  have h1 := bankersRound_abs_le (100 * (b + h))
  have h2 := bankersRound_abs_le (100 * b)
  have h3 := bankersRound_abs_le (100 * h)
  set z1 := bankersRound (100 * (b + h))
  set z2 := bankersRound (100 * b)
  set z3 := bankersRound (100 * h)
  have habs : |(z1 : ℚ) - z2 - z3| ≤ 3 / 2 := by
    have hid : (z1 : ℚ) - z2 - z3 =
        ((z1 : ℚ) - 100 * (b + h)) - ((z2 : ℚ) - 100 * b) - ((z3 : ℚ) - 100 * h) := by
      ring
    rw [abs_le] at h1 h2 h3 ⊢
    constructor <;> [skip; skip] <;> rw [hid] <;> [linarith; linarith]
  have hint : |z1 - z2 - z3| ≤ 1 := by
    by_contra hc
    have h2le : (2 : ℤ) ≤ |z1 - z2 - z3| := by omega
    have : ((2 : ℤ) : ℚ) ≤ ((|z1 - z2 - z3| : ℤ) : ℚ) := by exact_mod_cast h2le
    rw [Int.cast_abs] at this
    push_cast at this
    linarith
  have : |(z1 : ℚ) / 100 - ((z2 + z3 : ℤ) : ℚ) / 100| = |(z1 : ℚ) - z2 - z3| / 100 := by
    rw [show (z1 : ℚ) / 100 - ((z2 + z3 : ℤ) : ℚ) / 100 = ((z1 : ℚ) - z2 - z3) / 100 by
      push_cast; ring]
    rw [abs_div]
    norm_num
  rw [this]
  have hfin : |(z1 : ℚ) - z2 - z3| ≤ 1 := by
    have hq : ((|z1 - z2 - z3| : ℤ) : ℚ) ≤ ((1 : ℤ) : ℚ) := by exact_mod_cast hint
    rw [Int.cast_abs] at hq
    push_cast at hq
    exact hq
  linarith

theorem min_one_lipschitz (a b : ℚ) : |min 1 a - min 1 b| ≤ |a - b| := by
  have hab := le_abs_self (a - b)
  have hba := neg_abs_le (a - b)
  have hd := abs_nonneg (a - b)
  rcases min_cases (1 : ℚ) a with ⟨ha1, ha2⟩ | ⟨ha1, ha2⟩ <;>
    rcases min_cases (1 : ℚ) b with ⟨hb1, hb2⟩ | ⟨hb1, hb2⟩ <;>
    rw [ha1, hb1] <;> rw [abs_le] <;> constructor <;> linarith

theorem clamp01_lipschitz (a b : ℚ) : |clamp01 a - clamp01 b| ≤ |a - b| := by
  unfold clamp01
  have hm := min_one_lipschitz a b
  have hab := le_abs_self (min 1 a - min 1 b)
  have hba := neg_abs_le (min 1 a - min 1 b)
  have hd := abs_nonneg (min 1 a - min 1 b)
  have goal2 : |max 0 (min 1 a) - max 0 (min 1 b)| ≤ |min 1 a - min 1 b| := by
    rcases max_cases (0 : ℚ) (min 1 a) with ⟨ha1, ha2⟩ | ⟨ha1, ha2⟩ <;>
      rcases max_cases (0 : ℚ) (min 1 b) with ⟨hb1, hb2⟩ | ⟨hb1, hb2⟩ <;>
      rw [ha1, hb1] <;> rw [abs_le] <;> constructor <;> linarith
  linarith

theorem clamp_noise_bound (B x y : ℚ) (hx : |x| ≤ 1 / 10) (hy : |y| ≤ 1 / 10) :
    |clamp01 (B + x) - clamp01 (B + y)| ≤ 1 / 5 := by
  have h1 := clamp01_lipschitz (B + x) (B + y)
  have h2 : |(B + x) - (B + y)| = |x - y| := by ring_nf
  have h3 : |x - y| ≤ |x| + |y| := abs_sub x y
  rw [h2] at h1
  linarith

/-- Claim C9 counterexample: two calls on the same address with
different (both admissible) random draws return different HazardScores:
the hazard scorer is not deterministic in the address alone. -/
theorem c9_hazard_not_deterministic :
    validNoise ⟨0, 0, 0, 0⟩ ∧ validNoise ⟨1 / 10, 0, 0, 0⟩ ∧
    calculate_hazard_scores addr0 ⟨0, 0, 0, 0⟩ ≠
      calculate_hazard_scores addr0 ⟨1 / 10, 0, 0, 0⟩ := by
  refine ⟨by norm_num [validNoise, abs_le], by norm_num [validNoise, abs_le], ?_⟩
  intro h
  have := congrArg HazardScores.wildfire_risk h
  norm_num [calculate_hazard_scores, county_hazard_data, addr0, clamp01] at this

/-- Claim C9 amended: on the same address, two calls agree up to the
random jitter — each of the four risk fields differs by at most 0.2
(each call adds a draw from [-0.1, 0.1] to the county base and clamps). -/
theorem c9_hazard_jitter_bounded (address : NormalizedAddress) (n₁ n₂ : HazardNoise)
    (h1 : validNoise n₁) (h2 : validNoise n₂) :
    |(calculate_hazard_scores address n₁).wildfire_risk -
      (calculate_hazard_scores address n₂).wildfire_risk| ≤ 1 / 5 ∧
    |(calculate_hazard_scores address n₁).flood_risk -
      (calculate_hazard_scores address n₂).flood_risk| ≤ 1 / 5 ∧
    |(calculate_hazard_scores address n₁).wind_risk -
      (calculate_hazard_scores address n₂).wind_risk| ≤ 1 / 5 ∧
    |(calculate_hazard_scores address n₁).earthquake_risk -
      (calculate_hazard_scores address n₂).earthquake_risk| ≤ 1 / 5 := by
  obtain ⟨h1w, h1f, h1i, h1e⟩ := h1
  obtain ⟨h2w, h2f, h2i, h2e⟩ := h2
  exact ⟨clamp_noise_bound _ _ _ h1w h2w, clamp_noise_bound _ _ _ h1f h2f,
    clamp_noise_bound _ _ _ h1i h2i, clamp_noise_bound _ _ _ h1e h2e⟩

/-- Witness for the amended C9 bound at concrete draws. -/
theorem c9_hazard_jitter_bounded_witness :
    validNoise ⟨0, 0, 0, 0⟩ ∧ validNoise ⟨1 / 10, 0, 0, 0⟩ ∧
    |(calculate_hazard_scores addr0 ⟨0, 0, 0, 0⟩).wildfire_risk -
      (calculate_hazard_scores addr0 ⟨1 / 10, 0, 0, 0⟩).wildfire_risk| ≤ 1 / 5 := by
  have hn1 : validNoise ⟨0, 0, 0, 0⟩ := by norm_num [validNoise, abs_le]
  have hn2 : validNoise ⟨1 / 10, 0, 0, 0⟩ := by norm_num [validNoise, abs_le]
  exact ⟨hn1, hn2, (c9_hazard_jitter_bounded addr0 _ _ hn1 hn2).1⟩

theorem citationsOf_eq (l : List RetrievalChunk) :
    citationsOf l = (l.filter chunkHasKeyword).map citationKey := by
  have aux : ∀ (l : List RetrievalChunk) (acc : List String),
      l.foldl (fun acc chunk =>
        if chunkHasKeyword chunk then acc ++ [citationKey chunk] else acc) acc =
      acc ++ (l.filter chunkHasKeyword).map citationKey := by
    intro l
    induction l with
    | nil => intro acc; simp
    | cons c t ih =>
      intro acc
      by_cases hc : chunkHasKeyword c <;>
        simp [List.filter_cons, hc, ih, List.append_assoc]
  simpa [citationsOf] using aux l []

/-- Claim C8 counterexample: at construction year 0 (falsy in Python)
the node skips the pre-1940 deduction, so its score is 0.8 while the
claimed formula (deduct 0.2 whenever a year before 1940 is present)
gives 0.6. -/
theorem c8_claim_formula_fails :
    (assess_core c8_sub (some c8_enr) []).eligibility_score ≠
      spec_eligibility_claim c8_sub c8_enr := by
  have hpt : ¬("single_family" ∉ ["single_family", "condo", "townhouse"]) := by decide
  norm_num [assess_core, c8_sub, c8_enr, low_hazards, intTruthy, clamp01,
    spec_eligibility_claim, spec_property_deduction, spec_cy_deduction_claim,
    spec_wildfire_deduction, spec_flood_deduction, citationsOf, hpt]

/-- Claim C8 amended: for every submission, enrichment and chunk list,
the assessment's eligibility equals the spec formula with the deduction
for construction year < 1940 additionally requiring a truthy (nonzero)
year; citations and confidence are exactly as specified. -/
theorem c8_assessment_refines_spec (sub : QuoteSubmission) (e : EnrichmentResult)
    (chunks : List RetrievalChunk) :
    (assess_core sub (some e) chunks).eligibility_score = spec_eligibility sub e ∧
    (assess_core sub (some e) chunks).citations = spec_citations chunks ∧
    (assess_core sub (some e) chunks).confidence = spec_confidence chunks := by
  refine ⟨?_, ?_, ?_⟩
  · simp only [assess_core, spec_eligibility, spec_property_deduction, spec_cy_deduction,
      spec_wildfire_deduction, spec_flood_deduction]
    congr 1
    split_ifs <;> first | (exfalso; tauto) | ring
  · simp only [assess_core]
    rw [citationsOf_eq]
    rfl
  · simp only [assess_core, spec_confidence, spec_citations, citationsOf_eq]
    by_cases hc : (chunks.filter chunkHasKeyword).map citationKey = []
    · simp [hc]
    · simp only [hc, if_true, ne_eq, not_false_eq_true]
      rw [if_pos]
      exact List.length_pos.mpr (by simpa using hc)


theorem validate_c3 : validate_missing c3_sub = [] := by
  norm_num [validate_missing, c3_sub, intTruthy]
  decide

theorem assess_c3 : assess_core c3_sub (some e3) [chunk_risk] = a3 := by
  norm_num [assess_core, c3_sub, e3, chunk_risk, low_hazards, addr0, intTruthy,
    citations_risk, clamp01, fmt2_06, a3, construction_updates_question]
  decide

theorem assess_pipe_c3 : pipe_assessment risk_collab c3_sub = a3 := by
  have : pipe_assessment risk_collab c3_sub = assess_core c3_sub (some e3) [chunk_risk] := rfl
  rw [this, assess_c3]

theorem premium_c3 :
    calculate_premium 250000 "single_family" low_hazards (some 1930) = p3 := by
  norm_num [calculate_premium, basePremiumRaw, hazardSurchargeRaw, property_multiplier,
    base_rate_per_1000, ratingFactors, intTruthy, round2, bankersRound, round_eq,
    low_hazards, p3]

theorem premium_pipe_c3 : pipe_premium risk_collab c3_sub = p3 := by
  have : pipe_premium risk_collab c3_sub =
      calculate_premium 250000 "single_family" low_hazards (some 1930) := rfl
  rw [this, premium_c3]

theorem decision_c3 : decision_for a3 [] (some p3) = d3 := by
  norm_num [decision_for, a3, d3, fmt2_06]
  decide

theorem c3_entry : pre_decide_clean risk_collab c3_sub [] = c3_st none "rate" tc0 := by
  simp [pre_decide_clean, c3_st, assess_pipe_c3, premium_pipe_c3]
  exact ⟨rfl, rfl⟩

theorem c3_step_decide (n : Nat) (d : Option Decision) (cn : String) (tc : List ToolCall) :
    run_from risk_collab next_agentic (n + 1) .decide (c3_st d cn tc) =
    run_from risk_collab next_agentic n .handleMissingInfo
      (c3_st (some d3) "decide" (tc ++ [⟨"decision_making"⟩])) := by
  rw [step_decide_loop_ag _ _ _ a3 rfl (by simp [c3_st, decision_c3, d3])
    (by simp [c3_st, decision_c3, d3])]
  simp [c3_st, decision_c3]

theorem c3_step_handle (n : Nat) (d : Option Decision) (cn : String) (tc : List ToolCall) :
    run_from risk_collab next_agentic (n + 1) .handleMissingInfo (c3_st d cn tc) =
    run_from risk_collab next_agentic n .enrich
      (c3_st (some dh) "handle_missing_info" (tc ++ [⟨"generate_missing_info_questions"⟩])) := by
  rw [step_handle_noans_resolved_ag _ _ _ rfl rfl]
  simp [c3_st, dh]
  rfl

theorem c3_step_enrich (n : Nat) (d : Option Decision) (cn : String) (tc : List ToolCall) :
    run_from risk_collab next_agentic (n + 1) .enrich (c3_st d cn tc) =
    run_from risk_collab next_agentic n .retrieveGuidelines
      (c3_st d "enrich" (tc ++ [⟨"address_normalize"⟩, ⟨"hazard_score"⟩])) := by
  rw [step_enrich_ag]
  simp [c3_st, enrich_data]
  rfl

theorem c3_step_retrieve (n : Nat) (d : Option Decision) (cn : String) (tc : List ToolCall) :
    run_from risk_collab next_agentic (n + 1) .retrieveGuidelines (c3_st d cn tc) =
    run_from risk_collab next_agentic n .uwAssess
      (c3_st d "retrieve_guidelines" (tc ++ [⟨"rag_retrieval"⟩])) := by
  rw [step_retrieve_ag]
  simp [c3_st, retrieve_guidelines]
  rfl

theorem c3_step_assess (n : Nat) (d : Option Decision) (cn : String) (tc : List ToolCall) :
    run_from risk_collab next_agentic (n + 1) .uwAssess (c3_st d cn tc) =
    run_from risk_collab next_agentic n .citationGuardrail
      (c3_st d "uw_assess" (tc ++ [⟨"underwriting_assessment"⟩])) := by
  rw [step_assess_ag]
  simp [c3_st, assess_underwriting]
  rw [assess_c3]

theorem c3_step_guard (n : Nat) (d : Option Decision) (cn : String) (tc : List ToolCall) :
    run_from risk_collab next_agentic (n + 1) .citationGuardrail (c3_st d cn tc) =
    run_from risk_collab next_agentic n .rate (c3_st d "citation_guardrail" tc) := by
  rw [step_guard_pass_ag _ _ _ a3 rfl (by decide)]
  simp [c3_st]

theorem c3_step_rate (n : Nat) (d : Option Decision) (cn : String) (tc : List ToolCall) :
    run_from risk_collab next_agentic (n + 1) .rate (c3_st d cn tc) =
    run_from risk_collab next_agentic n .decide
      (c3_st d "rate" (tc ++ [⟨"rating_calculation"⟩])) := by
  rw [step_rate_ag _ _ _ e3 rfl]
  simp only [c3_st, c3_sub, e3]
  rw [premium_c3]

theorem c3_inv_all : ∀ n : Nat,
    (∀ d cn tc, run_from risk_collab next_agentic n .decide (c3_st d cn tc) = .fuelOut) ∧
    (∀ d cn tc, run_from risk_collab next_agentic n .handleMissingInfo (c3_st d cn tc) = .fuelOut) ∧
    (∀ d cn tc, run_from risk_collab next_agentic n .enrich (c3_st d cn tc) = .fuelOut) ∧
    (∀ d cn tc, run_from risk_collab next_agentic n .retrieveGuidelines (c3_st d cn tc) = .fuelOut) ∧
    (∀ d cn tc, run_from risk_collab next_agentic n .uwAssess (c3_st d cn tc) = .fuelOut) ∧
    (∀ d cn tc, run_from risk_collab next_agentic n .citationGuardrail (c3_st d cn tc) = .fuelOut) ∧
    (∀ d cn tc, run_from risk_collab next_agentic n .rate (c3_st d cn tc) = .fuelOut) := by
  intro n
  induction n using Nat.strong_induction_on with
  | _ n ih =>
    match n with
    | 0 => refine ⟨?_, ?_, ?_, ?_, ?_, ?_, ?_⟩ <;> intro d cn tc <;> rfl
    | m + 1 =>
      have ihm := ih m (by omega)
      refine ⟨?_, ?_, ?_, ?_, ?_, ?_, ?_⟩ <;> intro d cn tc
      · rw [c3_step_decide]; exact ihm.2.1 _ _ _
      · rw [c3_step_handle]; exact ihm.2.2.1 _ _ _
      · rw [c3_step_enrich]; exact ihm.2.2.2.1 _ _ _
      · rw [c3_step_retrieve]; exact ihm.2.2.2.2.1 _ _ _
      · rw [c3_step_assess]; exact ihm.2.2.2.2.2.1 _ _ _
      · rw [c3_step_guard]; exact ihm.2.2.2.2.2.2 _ _ _
      · rw [c3_step_rate]; exact ihm.1 _ _ _

/-- Claim C3 (code_bug): for the 1930-build submission with no answers,
the interactive workflow never terminates — whatever the step budget, it
is still cycling decide → handle_missing_info → enrich → … → decide. -/
theorem c3_interactive_workflow_diverges :
    ∀ fuel : Nat, run_agentic risk_collab fuel c3_sub [] = .fuelOut := by
  have hcit : (pipe_assessment risk_collab c3_sub).citations ≠ [] := by
    rw [assess_pipe_c3]; decide
  intro fuel
  rcases Nat.lt_or_ge fuel 6 with h | h
  · interval_cases fuel
    · rfl
    · show run_from risk_collab next_agentic (0 + 1) .validate (init_state c3_sub []) = _
      rw [step_val_clean_ag _ _ _ validate_c3]; rfl
    · show run_from risk_collab next_agentic (1 + 1) .validate (init_state c3_sub []) = _
      rw [step_val_clean_ag _ _ _ validate_c3]
      show run_from risk_collab next_agentic (0 + 1) .enrich _ = _
      rw [step_enrich_ag]; rfl
    · show run_from risk_collab next_agentic (2 + 1) .validate (init_state c3_sub []) = _
      rw [step_val_clean_ag _ _ _ validate_c3]
      show run_from risk_collab next_agentic (1 + 1) .enrich _ = _
      rw [step_enrich_ag]
      show run_from risk_collab next_agentic (0 + 1) .retrieveGuidelines _ = _
      rw [step_retrieve_ag]; rfl
    · show run_from risk_collab next_agentic (3 + 1) .validate (init_state c3_sub []) = _
      rw [step_val_clean_ag _ _ _ validate_c3]
      show run_from risk_collab next_agentic (2 + 1) .enrich _ = _
      rw [step_enrich_ag]
      show run_from risk_collab next_agentic (1 + 1) .retrieveGuidelines _ = _
      rw [step_retrieve_ag]
      show run_from risk_collab next_agentic (0 + 1) .uwAssess _ = _
      rw [step_assess_ag]; rfl
    · show run_from risk_collab next_agentic (4 + 1) .validate (init_state c3_sub []) = _
      rw [step_val_clean_ag _ _ _ validate_c3]
      show run_from risk_collab next_agentic (3 + 1) .enrich _ = _
      rw [step_enrich_ag]
      show run_from risk_collab next_agentic (2 + 1) .retrieveGuidelines _ = _
      rw [step_retrieve_ag]
      show run_from risk_collab next_agentic (1 + 1) .uwAssess _ = _
      rw [step_assess_ag]
      show run_from risk_collab next_agentic (0 + 1) .citationGuardrail _ = _
      rw [step_guard_pass_ag _ _ _ (pipe_assessment risk_collab c3_sub)
        (by simp [assess_underwriting, retrieve_guidelines, enrich_data,
          validate_submission, init_state]; rfl) hcit]
      rfl
  · obtain ⟨m, rfl⟩ : ∃ m, fuel = m + 6 := ⟨fuel - 6, by omega⟩
    show run_from risk_collab next_agentic (m + 6) .validate (init_state c3_sub []) = _
    rw [agentic_clean_start _ _ _ _ validate_c3 hcit, c3_entry]
    exact (c3_inv_all m).1 none "rate" tc0

end AUW
